import Mathlib

/-!
Shallow embedding of the ingestion pipeline of src/insert_child.py
(the function `ingest`, lines 15-143, together with the helpers it relies
on), and theorems checking the specification's claims about it.

Conventions:
* SQL `SELECT MAX(id) FROM t` returns NULL on an empty table, which
  psycopg2 surfaces as Python `None`.  The fetched maximum is modelled as
  `Option Nat`; Python expressions that would raise an exception
  (`None + 1`, calling a dict object, indexing an empty list, a failing
  `strptime`) make the surrounding computation return `none`.
* Python integers are unbounded, so `Nat`/`Int` are used directly.  The
  float division producing the variant frequency is modelled exactly,
  over `ℚ`.
* `datetime.datetime.now()` is threaded as an explicit `now` parameter.
* Each table is represented by the list of rows the run inserts into it;
  the pre-existing contents of a table only matter through its current
  maximum id, which is threaded as the `Option Nat` state of that table.
-/

/-- A JSON value that is either a single string or a list of strings: the
shapes taken by the `ethnicity`, `residence` and disease-answer fields of
the input documents. -/
inductive StrOrList where
  | str : String → StrOrList
  | list : List String → StrOrList
  deriving DecidableEq

/-- The `demographic` sub-record of a raw patient document (spec section 6).
`biologicalSex` and `age` (a date-of-birth string) are required by the code;
`ethnicity` and `residence` are optional keys. -/
structure Demographic where
  biologicalSex : String
  age : String
  ethnicity : Option StrOrList
  residence : Option StrOrList
  deriving DecidableEq

/-- One raw patient document: a `demographic` object and a `diseases`
object (an insertion-ordered dict, modelled as an association list). -/
structure Patient where
  demographic : Demographic
  diseases : List (String × StrOrList)
  deriving DecidableEq

/-- A calendar date (year, month, day). -/
structure Date where
  year : Nat
  month : Nat
  day : Nat
  deriving DecidableEq

/-- One per-sample genotype call of a VCF record: pyvcf exposes the sample
name and the `is_variant` predicate. -/
structure VcfCall where
  sample : String
  is_variant : Bool
  deriving DecidableEq

/-- One VCF data record as exposed by `vcf.Reader` (line 109): position,
chromosome, reference allele, alternate alleles, external id, and the
per-sample calls. -/
structure VcfRecord where
  POS : Int
  CHROM : String
  REF : String
  ALT : List String
  ID : Option String
  samples : List VcfCall
  deriving DecidableEq

/-- A row of `dataset_table` (lines 30-37). -/
structure DatasetRow where
  id : Nat
  stable_id : String
  description : String
  access_type : String
  reference_genome : String
  variant_cnt : Nat
  call_cnt : Nat
  sample_cnt : Nat
  deriving DecidableEq

/-- A row of `individual` (lines 61-63). -/
structure IndividualRow where
  id : Nat
  stable_id : String
  sex : String
  ethnicity : String
  geographic_origin : String
  deriving DecidableEq

/-- A row of `individual_disease_table` (lines 80-82).  The code stores the
raw `disease` key as `disease_id` and the date of birth in the `age`
column. -/
structure DiseaseRow where
  id : Nat
  individual_id : Nat
  disease_id : String
  age : Date
  deriving DecidableEq

/-- A row of `sample_table` (lines 87-89). -/
structure SampleRow where
  id : Nat
  stable_id : String
  individual_id : Nat
  individual_age_at_collection : Int
  collection_date : Date
  deriving DecidableEq

/-- A row of `dataset_sample_table` (lines 97-98). -/
structure DatasetSampleRow where
  id : Nat
  dataset_id : Nat
  sample_id : Nat
  deriving DecidableEq

/-- A row of `variant_table` (lines 117-120). -/
structure VariantRow where
  id : Nat
  dataset_id : Nat
  variant_id : Option String
  refseq : String
  reference : String
  alternate : String
  start : Int
  endpos : Int
  call_cnt : Nat
  sample_cnt : Nat
  matching_sample_cnt : Nat
  frequency : ℚ
  deriving DecidableEq

/-- A row of `variant_sample_table` (lines 125-126). -/
structure VariantSampleLinkRow where
  variant_id : Nat
  sample_id : Nat
  deriving DecidableEq

/-- A row of `dataset_access_level_table` (lines 135-138). -/
structure AccessRow where
  dataset_id : Nat
  parent_field : String
  field : String
  access_level : String
  deriving DecidableEq

/-- A row of `dataset_consent_code_table` (lines 139-142). -/
structure ConsentRow where
  dataset_id : Nat
  consent_code_id : Nat
  additional_constraint : Option String
  version : String
  deriving DecidableEq

/-- The result of `SELECT MAX(id)`: NULL (`none`) on an empty table,
otherwise the greatest id present (lines 27, 59, 78, 85, 95, 104). -/
def max_id : List Nat → Option Nat
  | [] => none
  | x :: xs => some (xs.foldl max x)

/-- The Identifier Allocator pattern `last_id + 1` applied to the fetched
maximum (lines 28/34, 60/63, 79/82, 86/89, 96/98, 105/106).  On an empty
table the fetched value is `None`, and `None + 1` raises TypeError; this
failure is modelled as `none`. -/
def next_id (ids : List Nat) : Option Nat :=
  (max_id ids).map (fun m => m + 1)

/-- Lines 69-70: a plain-string answer is wrapped into a one-element list
before the presence check. -/
def toStrList : StrOrList → List String
  | StrOrList.str s => [s]
  | StrOrList.list l => l

/-- Line 71: a disease is present when some answer is not exactly "No" and
not exactly "Never". -/
def hasDisease (dp : String × StrOrList) : Bool :=
  (toStrList dp.2).any (fun p => !(p == "No") && !(p == "Never"))

/-- Lines 74-76: the internal category key "oncological" is renamed to the
display name "Cancer".  The computed value is never used by the insert at
lines 80-82, which passes the original `disease` key. -/
def displayName (disease : String) : String :=
  if disease == "oncological" then "Cancer" else disease

/-- Number of disease categories of a patient that are marked present
(the number of `individual_disease_table` inserts the inner loop of lines
68-82 performs for that patient). -/
def presentCnt (p : Patient) : Nat :=
  (p.diseases.filter hasDisease).length

/-- A row of `individual_disease_table` as built by lines 80-82: the raw
`disease` key (not the renamed display name) and the date of birth. -/
def mkDiseaseRow (last_id patient_id : Nat) (disease : String) (dob : Date) : DiseaseRow :=
  ⟨last_id + 1, patient_id, disease, dob⟩

/-- The disease loop of lines 68-82: one insert per present category, each
allocating `MAX(id) + 1` of `individual_disease_table`; the threaded
`Option Nat` is the table's current maximum id. -/
def processDiseases (dob : Date) (patient_id : Nat) :
    List (String × StrOrList) → Option Nat → Option (List DiseaseRow × Option Nat)
  | [], m => some ([], m)
  | dp :: rest, m =>
    if hasDisease dp then
      match m with
      | none => none
      | some last_id =>
        let _disease_name := displayName dp.1
        match processDiseases dob patient_id rest (some (last_id + 1)) with
        | none => none
        | some (rows, m2) => some (mkDiseaseRow last_id patient_id dp.1 dob :: rows, m2)
    else
      processDiseases dob patient_id rest m

/-- Python truthiness of the optional sample name tested by `if sample:`
(line 84): `None` and the empty string are falsy. -/
def truthy : Option String → Bool
  | none => false
  | some s => !(s == "")

/-- The `{:03d}` format used in the stable individual id (line 44). -/
def pad3 (n : Nat) : String :=
  if n < 10 then "00" ++ toString n
  else if n < 100 then "0" ++ toString n
  else toString n

/-- Python `str.lower()` (line 46), for the ASCII data at hand. -/
def pyLower (s : String) : String :=
  String.mk (s.data.map Char.toLower)

/-- Lines 47-49: `demographic.get("ethnicity", "")`, taking element 0 when
the value is a list.  Indexing an empty list raises, modelled as `none`. -/
def ethnicityOf (d : Demographic) : Option String :=
  match d.ethnicity.getD (StrOrList.str "") with
  | StrOrList.str s => some s
  | StrOrList.list l => l.head?

/-- Lines 53-57: when the "residence" key is present the code executes
`demographic("residence")`, calling the dict object, which raises
TypeError unconditionally; modelled as `none`.  When the key is absent the
geographic origin stays the empty string. -/
def residenceOf (d : Demographic) : Option String :=
  match d.residence with
  | none => some ""
  | some _ => none

/-- Month abbreviations recognised by the `%b` directive. -/
def monthAbbrevs : List String :=
  ["Jan", "Feb", "Mar", "Apr", "May", "Jun", "Jul", "Aug", "Sep", "Oct", "Nov", "Dec"]

/-- Month number of a `%b` abbreviation. -/
def monthNum (b : String) : Option Nat :=
  (monthAbbrevs.findIdx? (fun m => m == b)).map (fun i => i + 1)

/-- Splitting a character list on the dash separator. -/
def splitDash : List Char → List (List Char)
  | [] => [[]]
  | c :: rest =>
    if c = '-' then [] :: splitDash rest
    else
      match splitDash rest with
      | [] => [[c]]
      | g :: gs => (c :: g) :: gs

/-- The numeric value of a decimal digit character. -/
def charDigit (c : Char) : Option Nat :=
  if '0' ≤ c ∧ c ≤ '9' then some (c.toNat - '0'.toNat) else none

/-- The value of a nonempty all-digit character list, most significant
digit first. -/
def parseDigits (cs : List Char) : Option Nat :=
  match cs with
  | [] => none
  | _ =>
    cs.foldl (fun acc c =>
      match acc, charDigit c with
      | some n, some d => some (n * 10 + d)
      | _, _ => none) (some 0)

/-- Modelled from the Python standard library: `datetime.strptime(s,
"%d-%b-%y")` (line 50), an external collaborator of the core.  Accepts
`day-abbreviatedMonth-2digitYear`; `%y` maps 00-68 to 20xx and 69-99 to
19xx.  A non-matching string is a parse failure (`none`). -/
def parseDob (s : String) : Option Date :=
  match splitDash s.data with
  | [d, b, y] =>
    match parseDigits d, monthNum (String.mk b), parseDigits y with
    | some dn, some mn, some yn =>
      if 1 ≤ dn ∧ dn ≤ 31 ∧ y.length = 2 then
        some ⟨(if yn ≤ 68 then 2000 + yn else 1900 + yn), mn, dn⟩
      else none
    | _, _, _ => none
  | _ => none

/-- Modelled from the dateutil library:
`relativedelta.relativedelta(now, dob).years` (line 51), the whole-year
calendar difference between `now` and the date of birth. -/
def ageYears (now dob : Date) : Int :=
  if now.month < dob.month ∨ (now.month = dob.month ∧ now.day < dob.day) then
    (now.year : Int) - (dob.year : Int) - 1
  else
    (now.year : Int) - (dob.year : Int)

/-- The per-table id state threaded through the patient loop: the current
maximum id of each of the four tables touched per patient (`none` when the
table is empty, in which case the next allocation raises). -/
structure Tables where
  individual : Option Nat
  disease : Option Nat
  sample : Option Nat
  datasetSample : Option Nat
  deriving DecidableEq

/-- Everything one iteration of the patient loop (lines 42-100) inserts for
one patient: the Individual row, the DiseaseRecord rows, the optional
Sample row and dataset-sample link, plus the updated table state. -/
def processPatient (now : Date) (dataset_id idnum : Nat) (patient : Patient)
    (sample : Option String) (t : Tables) :
    Option (IndividualRow × List DiseaseRow × Option SampleRow × Option DatasetSampleRow × Tables) :=
  match ethnicityOf patient.demographic with
  | none => none
  | some ethnicity =>
  match parseDob patient.demographic.age with
  | none => none
  | some dob =>
  match residenceOf patient.demographic with
  | none => none
  | some geographic_origin =>
  match t.individual with
  | none => none
  | some ind_last =>
  match processDiseases dob (ind_last + 1) patient.diseases t.disease with
  | none => none
  | some (diseaseRows, disease_max) =>
  if truthy sample then
    match t.sample, t.datasetSample with
    | some s_last, some ds_last =>
      some (⟨ind_last + 1, "Sythetic_CHILD" ++ pad3 (idnum + 1),
             pyLower patient.demographic.biologicalSex, ethnicity, geographic_origin⟩,
            diseaseRows,
            some ⟨s_last + 1, sample.getD "", ind_last + 1, ageYears now dob, now⟩,
            some ⟨ds_last + 1, dataset_id, s_last + 1⟩,
            ⟨some (ind_last + 1), disease_max, some (s_last + 1), some (ds_last + 1)⟩)
    | _, _ => none
  else
    some (⟨ind_last + 1, "Sythetic_CHILD" ++ pad3 (idnum + 1),
           pyLower patient.demographic.biologicalSex, ethnicity, geographic_origin⟩,
          diseaseRows, none, none,
          ⟨some (ind_last + 1), disease_max, t.sample, t.datasetSample⟩)

/-- The rows accumulated by the whole patient loop, plus the
`sample_to_id` dict (line 40/91) and the final table state. -/
structure PatientsOut where
  individuals : List IndividualRow
  diseaseRows : List DiseaseRow
  sampleRows : List SampleRow
  datasetSampleRows : List DatasetSampleRow
  sample_to_id : List (String × Nat)
  tables : Tables
  deriving DecidableEq

/-- The patient loop of lines 42-100, iterating over the zipped
(patient, padded sample) pairs in input order. -/
def processPatients (now : Date) (dataset_id : Nat) :
    Nat → List (Patient × Option String) → Tables → List (String × Nat) → Option PatientsOut
  | _, [], t, s2i => some ⟨[], [], [], [], s2i, t⟩
  | idnum, (patient, sample) :: rest, t, s2i =>
    match processPatient now dataset_id idnum patient sample t with
    | none => none
    | some (indiv, drows, srow, dsrow, t2) =>
      match processPatients now dataset_id (idnum + 1) rest t2
          (match srow with
           | some sr => s2i ++ [(sr.stable_id, sr.id)]
           | none => s2i) with
      | none => none
      | some out =>
        some ⟨indiv :: out.individuals, drows ++ out.diseaseRows,
              srow.toList ++ out.sampleRows, dsrow.toList ++ out.datasetSampleRows,
              out.sample_to_id, out.tables⟩

/-- Line 39: `padded_samples = samples + [None]*len(data)`, zipped with the
patient list (line 42).  `zip` truncates to the patient list's length. -/
def pairUp (data : List Patient) (samples : List String) : List (Patient × Option String) :=
  data.zip (samples.map some ++ List.replicate data.length none)

/-- Python dict lookup on the accumulated association list: the most
recently written binding for a key wins. -/
def dictLookup (l : List (String × Nat)) (k : String) : Option Nat :=
  (l.reverse.find? (fun pr => pr.1 == k)).map (fun pr => pr.2)

/-- Line 110: the samples whose genotype call flags a variant. -/
def carriers (r : VcfRecord) : List String :=
  (r.samples.filter (fun c => c.is_variant)).map (fun c => c.sample)

/-- The Variant row built by lines 113-120: only the first alternate allele
is used, `endpos = POS + len(REF) - 1`, the call and sample counts are both
the total sample count, and `frequency` is the float division
`1.*len(has_var)/nsamples`, modelled exactly over ℚ. -/
def mkVariantRow (dataset_id nsamples cur_var_id : Nat) (r : VcfRecord) : VariantRow :=
  ⟨cur_var_id, dataset_id, r.ID, r.CHROM, r.REF, r.ALT.headD "",
   r.POS, r.POS + (r.REF.length : Int) - 1,
   nsamples, nsamples, (carriers r).length,
   ((carriers r).length : ℚ) / (nsamples : ℚ)⟩

/-- Lines 124-126: one link row per carrying sample that has a known
Sample id; carriers absent from `sample_to_id` are dropped. -/
def mkLinks (s2i : List (String × Nat)) (cur_var_id : Nat) (r : VcfRecord) :
    List VariantSampleLinkRow :=
  (carriers r).filterMap (fun samp => (dictLookup s2i samp).map (fun sid => ⟨cur_var_id, sid⟩))

/-- The variant loop of lines 109-133: records with no carrier are skipped;
otherwise a Variant row and its links are emitted, the local id counter and
the `count`/`callcount` totals advance, and the loop breaks as soon as
`count % 1000 == 0` after the increment (line 132).  Returns the Variant
rows, the link rows, and the final `count` and `callcount`. -/
def variantLoop (dataset_id nsamples : Nat) (s2i : List (String × Nat)) :
    List VcfRecord → Nat → Nat → Nat →
      List VariantRow × List VariantSampleLinkRow × Nat × Nat
  | [], _, count, callcount => ([], [], count, callcount)
  | r :: rest, cur_var_id, count, callcount =>
    if (carriers r).isEmpty then
      variantLoop dataset_id nsamples s2i rest cur_var_id count callcount
    else if (count + 1) % 1000 == 0 then
      ([mkVariantRow dataset_id nsamples cur_var_id r], mkLinks s2i cur_var_id r,
       count + 1, callcount + (carriers r).length)
    else
      (mkVariantRow dataset_id nsamples cur_var_id r ::
         (variantLoop dataset_id nsamples s2i rest (cur_var_id + 1) (count + 1)
            (callcount + (carriers r).length)).1,
       mkLinks s2i cur_var_id r ++
         (variantLoop dataset_id nsamples s2i rest (cur_var_id + 1) (count + 1)
            (callcount + (carriers r).length)).2.1,
       (variantLoop dataset_id nsamples s2i rest (cur_var_id + 1) (count + 1)
          (callcount + (carriers r).length)).2.2.1,
       (variantLoop dataset_id nsamples s2i rest (cur_var_id + 1) (count + 1)
          (callcount + (carriers r).length)).2.2.2)

/-- Lines 22-25: the access tier string. -/
def accessType (full_access : Bool) : String :=
  if full_access then "REGISTERED" else "CONTROLLED"

/-- Lines 30-37: the Dataset row as inserted at creation.  Note that
`variant_cnt` and `call_cnt` are the hard-coded constant 100 and
`sample_cnt` is the length of the sample name list. -/
def datasetRow (last_id : Nat) (dataset_name dataset_description access_type : String)
    (nsamples : Nat) : DatasetRow :=
  ⟨last_id + 1, dataset_name ++ "_" ++ access_type,
   dataset_description ++ " " ++ access_type ++ " access",
   access_type, "GRCh37", 100, 100, nsamples⟩

/-- The initial id state of all six id-allocating tables (their current
maximum ids; `none` for an empty table). -/
structure AllTables where
  dataset : Option Nat
  individual : Option Nat
  disease : Option Nat
  sample : Option Nat
  datasetSample : Option Nat
  variant : Option Nat
  deriving DecidableEq

/-- Everything a full run of `ingest` inserts, plus the final values of the
`count`/`callcount` locals (which are only printed, lines 129-130). -/
structure IngestResult where
  dataset : DatasetRow
  individuals : List IndividualRow
  diseaseRows : List DiseaseRow
  sampleRows : List SampleRow
  datasetSampleRows : List DatasetSampleRow
  variantRows : List VariantRow
  variantSampleRows : List VariantSampleLinkRow
  accessRows : List AccessRow
  consentRows : List ConsentRow
  count : Nat
  callcount : Nat
  deriving DecidableEq

/-- The full `ingest` function (lines 15-143): create the Dataset row, run
the patient loop over the zipped pairs, read `MAX(id)` of the variant table
(line 104, unconditionally), and if the sample list is non-empty run the
variant loop and append the access-level and consent rows.  The Dataset row
is never updated after creation. -/
def ingest (init : AllTables) (now : Date) (data : List Patient) (samples : List String)
    (records : List VcfRecord) (dataset_name dataset_description : String)
    (full_access : Bool) : Option IngestResult :=
  match init.dataset with
  | none => none
  | some ds_last =>
  match processPatients now (ds_last + 1) 0 (pairUp data samples)
      ⟨init.individual, init.disease, init.sample, init.datasetSample⟩ [] with
  | none => none
  | some pout =>
  match init.variant with
  | none => none
  | some var_last =>
  if 0 < samples.length then
    some ⟨datasetRow ds_last dataset_name dataset_description (accessType full_access)
            samples.length,
          pout.individuals, pout.diseaseRows, pout.sampleRows, pout.datasetSampleRows,
          (variantLoop (ds_last + 1) samples.length pout.sample_to_id records
             (var_last + 1) 0 0).1,
          (variantLoop (ds_last + 1) samples.length pout.sample_to_id records
             (var_last + 1) 0 0).2.1,
          [⟨ds_last + 1, "accessLevelSummary", "-", "PUBLIC"⟩],
          [⟨ds_last + 1, 1, none, "v1.0"⟩],
          (variantLoop (ds_last + 1) samples.length pout.sample_to_id records
             (var_last + 1) 0 0).2.2.1,
          (variantLoop (ds_last + 1) samples.length pout.sample_to_id records
             (var_last + 1) 0 0).2.2.2⟩
  else
    some ⟨datasetRow ds_last dataset_name dataset_description (accessType full_access)
            samples.length,
          pout.individuals, pout.diseaseRows, pout.sampleRows, pout.datasetSampleRows,
          [], [], [], [], 0, 0⟩

/-- A fixed "now" for the concrete evaluations below. -/
def nowA : Date := ⟨2020, 6, 15⟩

/-- Table state with every table holding one row of id 0. -/
def tablesA : Tables := ⟨some 0, some 0, some 0, some 0⟩

/-- Initial state with every table holding one row of id 0. -/
def initA : AllTables := ⟨some 0, some 0, some 0, some 0, some 0, some 0⟩

/-- A well-formed patient document without the optional fields. -/
def patientA : Patient :=
  ⟨⟨"Male", "05-Jan-99", none, none⟩, [("respiratorySystem", StrOrList.str "Yes")]⟩

/-- A well-formed patient document that also carries the optional
`ethnicity` and `residence` fields. -/
def patientR : Patient :=
  ⟨⟨"Male", "05-Jan-99", some (StrOrList.str "white"), some (StrOrList.str "Canada")⟩,
   [("respiratorySystem", StrOrList.str "No")]⟩

/-- The same document as `patientR` but without the `residence` key. -/
def patientB : Patient :=
  ⟨⟨"Male", "05-Jan-99", some (StrOrList.str "white"), none⟩,
   [("respiratorySystem", StrOrList.str "No")]⟩

/-- One VCF record with a single carrying sample S1. -/
def recA : VcfRecord := ⟨100, "1", "A", ["T"], some "rs1", [⟨"S1", true⟩]⟩

/-- The Dataset row created by a run over `initA` with one sample name. -/
def dsA : DatasetRow :=
  ⟨1, "n_CONTROLLED", "d CONTROLLED access", "CONTROLLED", "GRCh37", 100, 100, 1⟩

/-- The Individual row created for `patientA` as the first patient. -/
def indivA : IndividualRow := ⟨1, "Sythetic_CHILD001", "male", "", ""⟩

/-- The DiseaseRecord row created for `patientA`. -/
def drowA : DiseaseRow := ⟨1, 1, "respiratorySystem", ⟨1999, 1, 5⟩⟩

/-- The Sample row created for `patientA` paired with name S1. -/
def srowA : SampleRow := ⟨1, "S1", 1, 21, nowA⟩

/-- The dataset-sample link row of that run. -/
def dsrowA : DatasetSampleRow := ⟨1, 1, 1⟩

/-- The Variant row produced from `recA` in that run; its frequency is the
division 1/1. -/
def vA : VariantRow :=
  ⟨1, 1, some "rs1", "1", "A", "T", 100, 100, 1, 1, 1, ((1 : Nat) : ℚ) / ((1 : Nat) : ℚ)⟩

/-- The access-level row of that run. -/
def accA : AccessRow := ⟨1, "accessLevelSummary", "-", "PUBLIC"⟩

/-- The consent row of that run. -/
def conA : ConsentRow := ⟨1, 1, none, "v1.0"⟩

/-- The full result of `ingest initA nowA [patientA] ["S1"] [recA] "n" "d"
false`. -/
def resA : IngestResult :=
  ⟨dsA, [indivA], [drowA], [srowA], [dsrowA], [vA], [⟨1, 1⟩], [accA], [conA], 1, 1⟩

/-- The full result of `ingest initA nowA [] ["S1"] [] "n" "d" false`:
no patients, one (unused) sample name, no variant records. -/
def resB : IngestResult :=
  ⟨dsA, [], [], [], [], [], [], [accA], [conA], 0, 0⟩

/-- The Dataset row of a run with an empty sample list. -/
def dsC : DatasetRow :=
  ⟨1, "n_CONTROLLED", "d CONTROLLED access", "CONTROLLED", "GRCh37", 100, 100, 0⟩

/-- The full result of `ingest initA nowA [] [] [] "n" "d" false`: empty
sample list, so the whole variant phase is skipped. -/
def resC : IngestResult :=
  ⟨dsC, [], [], [], [], [], [], [], [], 0, 0⟩

theorem le_foldl_max (xs : List Nat) : ∀ a : Nat, a ≤ xs.foldl max a := by
  induction xs with
  | nil => intro a; exact le_refl a
  | cons x xs ih =>
    intro a
    simp only [List.foldl_cons]
    exact le_trans (le_max_left a x) (ih (max a x))

theorem mem_le_foldl_max (xs : List Nat) : ∀ (a x : Nat), x ∈ xs → x ≤ xs.foldl max a := by
  induction xs with
  | nil => intro a x hx; cases hx
  | cons y ys ih =>
    intro a x hx
    simp only [List.foldl_cons]
    rcases List.mem_cons.mp hx with h | h
    · subst h; exact le_trans (le_max_right a x) (le_foldl_max ys (max a x))
    · exact ih (max a y) x h

theorem foldl_max_mem (xs : List Nat) : ∀ a : Nat, xs.foldl max a = a ∨ xs.foldl max a ∈ xs := by
  induction xs with
  | nil => intro a; exact Or.inl rfl
  | cons y ys ih =>
    intro a
    simp only [List.foldl_cons]
    rcases ih (max a y) with h | h
    · rcases max_choice a y with h2 | h2
      · exact Or.inl (h.trans h2)
      · exact Or.inr (List.mem_cons.mpr (Or.inl (h.trans h2)))
    · exact Or.inr (List.mem_cons.mpr (Or.inr h))

/-- C1 (amended): on a nonempty table the Identifier Allocator returns the
maximum existing id plus 1; on an empty table `MAX(id)` is NULL and
`last_id + 1` fails (TypeError) instead of treating the maximum as 0 and
allocating 1. -/
theorem c1_next_id_max_plus_one (ids : List Nat) (m : Nat) (h : max_id ids = some m) :
    m ∈ ids ∧ (∀ x ∈ ids, x ≤ m) ∧ next_id ids = some (m + 1) := by
  cases ids with
  | nil => simp [max_id] at h
  | cons x xs =>
    simp only [max_id, Option.some.injEq] at h
    subst h
    refine ⟨?_, ?_, by simp [next_id, max_id]⟩
    · rcases foldl_max_mem xs x with h | h
      · rw [h]; exact List.mem_cons_self x xs
      · exact List.mem_cons_of_mem x h
    · intro z hz
      rcases List.mem_cons.mp hz with h | h
      · subst h; exact le_foldl_max xs z
      · exact mem_le_foldl_max xs x z h

/-- Witness for C1 at the concrete table contents [3, 5]. -/
theorem c1_witness :
    5 ∈ [3, 5] ∧ (∀ x ∈ [3, 5], x ≤ 5) ∧ next_id [3, 5] = some (5 + 1) :=
  c1_next_id_max_plus_one [3, 5] 5 (by decide)

/-- C1 counterexample: on an empty table the allocator does not yield 1 —
`MAX(id)` is NULL and `None + 1` raises, so no id is allocated at all. -/
theorem c1_counterexample : next_id ([] : List Nat) ≠ some 1 := by decide

/-- C3 (code bug): a patient document carrying the optional `residence`
field makes the Patient Normalizer fail — line 55 executes
`demographic("residence")`, calling the dict object, which raises
TypeError — while the same document without the `residence` key is
normalized successfully.  The claim says such a document yields one
Individual row. -/
theorem c3_residence_type_error :
    processPatient nowA 1 0 patientR (some "S1") tablesA = none ∧
    (processPatient nowA 1 0 patientB (some "S1") tablesA).isSome = true :=
  ⟨by decide, by decide⟩

/-- C4 (code bug): for a questionnaire marking "oncological" as present,
the DiseaseRecord row stores the raw key "oncological" — the renamed
display name "Cancer" computed at lines 74-76 is never passed to the
insert at lines 80-82. -/
theorem c4_oncological_key_inserted :
    (processDiseases ⟨1999, 1, 5⟩ 7 [("oncological", StrOrList.str "Yes")] (some 0)).map
        (fun pr => pr.1.map (fun r => r.disease_id)) = some ["oncological"] ∧
    ("oncological" : String) ≠ "Cancer" :=
  ⟨by rfl, by decide⟩

/-- C2 counterexample: a run that processes exactly one variant leaves the
Dataset row's counters at the creation constants 100/100; they are never
rewritten to the processed totals (count = callcount = 1 here). -/
theorem c2_counterexample :
    (ingest initA nowA [patientA] ["S1"] [recA] "n" "d" false).map
        (fun r => (r.dataset.variant_cnt, r.dataset.call_cnt, r.count, r.callcount))
      = some (100, 100, 1, 1) ∧ (100 : Nat) ≠ 1 :=
  ⟨by decide, by decide⟩

/-- C5 counterexample: a run with an empty sample list writes zero
AccessLevelEntry and zero ConsentEntry rows (the inserts at lines 135-142
sit inside `if nsamples > 0`), not one of each. -/
theorem c5_counterexample :
    (ingest initA nowA [] [] [] "n" "d" false).map
        (fun r => (r.accessRows.length, r.consentRows.length)) = some (0, 0) ∧
    (0 : Nat) ≠ 1 :=
  ⟨by decide, by decide⟩

/-- C7 counterexample: with one patient and a sample list of length one
whose only name is the empty string, the patient's position is within the
sample list length, yet `if sample:` (line 84) is falsy for the empty
string and no Sample row is created; the Individual row still is. -/
theorem c7_counterexample :
    (ingest initA nowA [patientA] [""] [] "n" "d" false).map
        (fun r => (r.individuals.length, r.sampleRows.length)) = some (1, 0) ∧
    (0 : Nat) < ([""] : List String).length ∧ (0 : Nat) ≠ 1 :=
  ⟨by decide, by decide, by decide⟩

theorem carriers_length_le (r : VcfRecord) : (carriers r).length ≤ r.samples.length := by
  simp only [carriers, List.length_map]
  exact List.length_filter_le _ _

theorem variantLoop_length_bound (did ns : Nat) (s2i : List (String × Nat)) :
    ∀ (records : List VcfRecord) (cur count cc : Nat),
      (variantLoop did ns s2i records cur count cc).1.length ≤ 1000 - count % 1000 := by
  intro records
  induction records with
  | nil => intro cur count cc; simp [variantLoop]
  | cons r rest ih =>
    intro cur count cc
    simp only [variantLoop]
    split
    · exact ih cur count cc
    · split
      · simp only [List.length_cons, List.length_nil]
        omega
      · rename_i h2
        have h2' : (count + 1) % 1000 ≠ 0 := by simpa using h2
        have hrec := ih (cur + 1) (count + 1) (cc + (carriers r).length)
        simp only [List.length_cons]
        omega

/-- C8: the Variant Stream Processor emits at most 1000 Variant rows for
any input record sequence — the loop starts its `count` at 0 (line 103) and
breaks as soon as `count % 1000 == 0` after an ingest (line 132). -/
theorem c8_variant_cap (did ns : Nat) (s2i : List (String × Nat)) (records : List VcfRecord)
    (cur : Nat) : (variantLoop did ns s2i records cur 0 0).1.length ≤ 1000 := by
  have := variantLoop_length_bound did ns s2i records cur 0 0
  omega

theorem variantLoop_mem_fields (did ns : Nat) (s2i : List (String × Nat)) :
    ∀ (records : List VcfRecord) (cur count cc : Nat) (v : VariantRow),
      v ∈ (variantLoop did ns s2i records cur count cc).1 →
      ∃ r ∈ records, ∃ cid, v = mkVariantRow did ns cid r := by
  intro records
  induction records with
  | nil => intro cur count cc v hv; simp [variantLoop] at hv
  | cons r rest ih =>
    intro cur count cc v hv
    simp only [variantLoop] at hv
    split at hv
    · obtain ⟨r0, hr0, cid, hval⟩ := ih cur count cc v hv
      exact ⟨r0, List.mem_cons_of_mem r hr0, cid, hval⟩
    · split at hv
      · simp only [List.mem_singleton] at hv
        exact ⟨r, List.mem_cons_self r rest, cur, hv⟩
      · simp only [List.mem_cons] at hv
        rcases hv with hv | hv
        · exact ⟨r, List.mem_cons_self r rest, cur, hv⟩
        · obtain ⟨r0, hr0, cid, hval⟩ :=
            ih (cur + 1) (count + 1) (cc + (carriers r).length) v hv
          exact ⟨r0, List.mem_cons_of_mem r hr0, cid, hval⟩

/-- C9: every Variant row produced by the Variant Stream Processor has
`endpos = start + length(reference) - 1` (line 115). -/
theorem c9_end_position (did ns : Nat) (s2i : List (String × Nat)) (records : List VcfRecord)
    (cur count cc : Nat) (v : VariantRow)
    (hv : v ∈ (variantLoop did ns s2i records cur count cc).1) :
    v.endpos = v.start + (v.reference.length : Int) - 1 := by
  obtain ⟨r, _, cid, rfl⟩ := variantLoop_mem_fields did ns s2i records cur count cc v hv
  rfl

/-- Witness for C9 at a concrete one-record run. -/
theorem c9_witness : vA.endpos = vA.start + (vA.reference.length : Int) - 1 :=
  c9_end_position 1 1 [("S1", 1)] [recA] 1 0 0 vA (by
    have h : (variantLoop 1 1 [("S1", 1)] [recA] 1 0 0).1 = [vA] := rfl
    rw [h]
    exact List.mem_singleton.mpr rfl)

theorem option_toList_map {α β : Type} (o : Option α) (f : α → β) :
    o.toList.map f = (o.map f).toList := by
  cases o <;> rfl

theorem processDiseases_length (dob : Date) (pid : Nat) :
    ∀ (ds : List (String × StrOrList)) (m : Option Nat) (rows : List DiseaseRow)
      (m2 : Option Nat), processDiseases dob pid ds m = some (rows, m2) →
      rows.length = (ds.filter hasDisease).length := by
  intro ds
  induction ds with
  | nil =>
    intro m rows m2 h
    simp only [processDiseases, Option.some.injEq, Prod.mk.injEq] at h
    simp [← h.1]
  | cons dp rest ih =>
    intro m rows m2 h
    simp only [processDiseases] at h
    split at h
    · rename_i hd
      split at h
      · simp at h
      · rename_i last_id
        split at h
        · simp at h
        · rename_i rows0 m0 hrec
          simp only [Option.some.injEq, Prod.mk.injEq] at h
          rw [← h.1, List.filter_cons_of_pos hd]
          simp only [List.length_cons]
          rw [ih (some (last_id + 1)) rows0 m0 hrec]
    · rename_i hd
      rw [List.filter_cons_of_neg hd]
      exact ih m rows m2 h

theorem processPatient_spec (now : Date) (did idnum : Nat) (p : Patient)
    (sample : Option String) (t : Tables) (indiv : IndividualRow)
    (drows : List DiseaseRow) (srow : Option SampleRow) (dsrow : Option DatasetSampleRow)
    (t2 : Tables)
    (h : processPatient now did idnum p sample t = some (indiv, drows, srow, dsrow, t2)) :
    srow.map (fun r => r.stable_id) = (if truthy sample then sample else none) ∧
    drows.length = presentCnt p := by
  unfold processPatient at h
  split at h
  · simp at h
  · split at h
    · simp at h
    · split at h
      · simp at h
      · split at h
        · simp at h
        · split at h
          · simp at h
          · rename_i diseaseRows disease_max hdis
            have hlen := processDiseases_length _ _ _ _ _ _ hdis
            split at h
            · rename_i htr
              split at h
              · simp only [Option.some.injEq, Prod.mk.injEq] at h
                obtain ⟨-, hdr, hsr, -, -⟩ := h
                subst hdr hsr
                refine ⟨?_, hlen⟩
                cases sample with
                | none => simp [truthy] at htr
                | some s => simp [htr]
              · simp at h
            · rename_i htr
              simp only [Option.some.injEq, Prod.mk.injEq] at h
              obtain ⟨-, hdr, hsr, -, -⟩ := h
              subst hdr hsr
              refine ⟨?_, hlen⟩
              simp [htr]

theorem processPatients_spec (now : Date) (did : Nat) :
    ∀ (pairs : List (Patient × Option String)) (idnum : Nat) (t : Tables)
      (s2i : List (String × Nat)) (out : PatientsOut),
      processPatients now did idnum pairs t s2i = some out →
      out.individuals.length = pairs.length ∧
      out.sampleRows.map (fun r => r.stable_id)
          = pairs.filterMap (fun pr => if truthy pr.2 then pr.2 else none) ∧
      out.diseaseRows.length = (pairs.map (fun pr => presentCnt pr.1)).sum := by
  intro pairs
  induction pairs with
  | nil =>
    intro idnum t s2i out h
    simp only [processPatients, Option.some.injEq] at h
    subst h
    simp
  | cons pr rest ih =>
    intro idnum t s2i out h
    obtain ⟨patient, sample⟩ := pr
    simp only [processPatients] at h
    split at h
    · simp at h
    · rename_i indiv drows srow dsrow t2 hpp
      split at h
      · simp at h
      · rename_i out0 hrec
        simp only [Option.some.injEq] at h
        subst h
        have hps := processPatient_spec now did idnum patient sample t indiv drows srow
          dsrow t2 hpp
        have hih := ih (idnum + 1) t2 _ out0 hrec
        refine ⟨?_, ?_, ?_⟩
        · simp only [List.length_cons, hih.1]
        · simp only [List.map_append, option_toList_map, hps.1, List.filterMap_cons]
          cases htr : truthy sample with
          | false =>
            simp only [htr, Bool.false_eq_true, if_false, Option.toList_none,
              List.nil_append]
            exact hih.2.1
          | true =>
            cases sample with
            | none => simp [truthy] at htr
            | some s =>
              simp only [htr, if_true, Option.toList_some, List.singleton_append]
              rw [hih.2.1]
        · simp only [List.length_append, hps.2, hih.2.2, List.map_cons, List.sum_cons]

theorem zip_append_right {α β : Type} :
    ∀ (l1 : List α) (l2 ex : List β), l1.length ≤ l2.length →
      l1.zip (l2 ++ ex) = l1.zip l2 := by
  intro l1
  induction l1 with
  | nil => intro l2 ex h; simp
  | cons a l1 ih =>
    intro l2 ex h
    cases l2 with
    | nil => simp at h
    | cons b l2 =>
      simp only [List.cons_append, List.zip_cons_cons]
      rw [ih l2 ex (by simpa using h)]

theorem pairUp_nil_cons (d : Patient) (ds : List Patient) :
    pairUp (d :: ds) [] = (d, (none : Option String)) :: pairUp ds [] := by
  simp [pairUp, List.replicate_succ, List.zip_cons_cons]

theorem pairUp_cons_cons (d : Patient) (ds : List Patient) (s : String) (ss : List String) :
    pairUp (d :: ds) (s :: ss) = (d, some s) :: pairUp ds ss := by
  simp only [pairUp, List.map_cons, List.cons_append, List.length_cons,
    List.zip_cons_cons, List.replicate_succ']
  congr 1
  rw [← List.append_assoc]
  exact zip_append_right ds (ss.map some ++ List.replicate ds.length none) [none]
    (by simp)

theorem pairUp_length (data : List Patient) (samples : List String) :
    (pairUp data samples).length = data.length := by
  simp only [pairUp, List.length_zip, List.length_append, List.length_map,
    List.length_replicate]
  omega

theorem truthy_none : truthy none = false := rfl

theorem truthy_some (s : String) : truthy (some s) = !(s == "") := rfl

theorem pairUp_filterMap :
    ∀ (data : List Patient) (samples : List String),
      (pairUp data samples).filterMap (fun pr => if truthy pr.2 then pr.2 else none)
        = (samples.take data.length).filter (fun s => !(s == "")) := by
  intro data
  induction data with
  | nil => intro samples; simp [pairUp]
  | cons d ds ih =>
    intro samples
    cases samples with
    | nil =>
      rw [pairUp_nil_cons, List.filterMap_cons]
      simp only [truthy_none, Bool.false_eq_true, if_false]
      rw [ih []]
      simp
    | cons s ss =>
      rw [pairUp_cons_cons, List.filterMap_cons, List.length_cons, List.take_succ_cons,
        List.filter_cons]
      cases hs : (s == "") with
      | true =>
        simp only [truthy_some, hs, Bool.not_true, Bool.false_eq_true, if_false]
        exact ih ss
      | false =>
        simp only [truthy_some, hs, Bool.not_false, if_true]
        rw [ih ss]

theorem pairUp_map_fst :
    ∀ (data : List Patient) (samples : List String),
      (pairUp data samples).map (fun pr => presentCnt pr.1) = data.map presentCnt := by
  intro data
  induction data with
  | nil => intro samples; simp [pairUp]
  | cons d ds ih =>
    intro samples
    cases samples with
    | nil => rw [pairUp_nil_cons]; simp [ih []]
    | cons s ss => rw [pairUp_cons_cons]; simp [ih ss]

theorem ingest_cases (init : AllTables) (now : Date) (data : List Patient)
    (samples : List String) (records : List VcfRecord) (nm dsc : String) (fa : Bool)
    (res : IngestResult) (h : ingest init now data samples records nm dsc fa = some res) :
    ∃ ds_last var_last pout,
      init.dataset = some ds_last ∧ init.variant = some var_last ∧
      processPatients now (ds_last + 1) 0 (pairUp data samples)
        ⟨init.individual, init.disease, init.sample, init.datasetSample⟩ [] = some pout ∧
      res.dataset = datasetRow ds_last nm dsc (accessType fa) samples.length ∧
      res.individuals = pout.individuals ∧
      res.diseaseRows = pout.diseaseRows ∧
      res.sampleRows = pout.sampleRows ∧
      res.datasetSampleRows = pout.datasetSampleRows ∧
      (0 < samples.length →
        res.variantRows
            = (variantLoop (ds_last + 1) samples.length pout.sample_to_id records
                (var_last + 1) 0 0).1 ∧
          res.accessRows = [⟨ds_last + 1, "accessLevelSummary", "-", "PUBLIC"⟩] ∧
          res.consentRows = [⟨ds_last + 1, 1, none, "v1.0"⟩]) ∧
      (samples.length = 0 →
        res.variantRows = [] ∧ res.accessRows = [] ∧ res.consentRows = []) := by
  unfold ingest at h
  split at h
  · simp at h
  · rename_i ds_last hds
    split at h
    · simp at h
    · rename_i pout hpout
      split at h
      · simp at h
      · rename_i var_last hvar
        split at h
        · rename_i hpos
          cases h
          exact ⟨ds_last, var_last, pout, hds, hvar, hpout, rfl, rfl, rfl, rfl, rfl,
            fun _ => ⟨rfl, rfl, rfl⟩, fun h0 => absurd h0 (by omega)⟩
        · rename_i hneg
          cases h
          exact ⟨ds_last, var_last, pout, hds, hvar, hpout, rfl, rfl, rfl, rfl, rfl,
            fun hp => absurd hp hneg, fun _ => ⟨rfl, rfl, rfl⟩⟩

/-- C2 (amended): the Dataset row is written once at creation with the
hard-coded counters `variant_cnt = call_cnt = 100` (line 36) and is never
updated afterwards — the processed totals `count`/`callcount` are computed
but only printed (lines 127-130), never written back. -/
theorem c2_dataset_counters (init : AllTables) (now : Date) (data : List Patient)
    (samples : List String) (records : List VcfRecord) (nm dsc : String) (fa : Bool)
    (lid : Nat) (res : IngestResult)
    (h0 : init.dataset = some lid)
    (h : ingest init now data samples records nm dsc fa = some res) :
    res.dataset = datasetRow lid nm dsc (accessType fa) samples.length ∧
    res.dataset.variant_cnt = 100 ∧ res.dataset.call_cnt = 100 := by
  obtain ⟨ds_last, var_last, pout, hds0, -, -, hds, -, -, -, -, -, -⟩ :=
    ingest_cases init now data samples records nm dsc fa res h
  rw [hds0] at h0
  injection h0 with h0
  subst h0
  exact ⟨hds, by rw [hds]; rfl, by rw [hds]; rfl⟩

/-- Witness for C2 at a concrete run with empty inputs. -/
theorem c2_witness :
    resC.dataset = datasetRow 0 "n" "d" (accessType false) ([] : List String).length ∧
    resC.dataset.variant_cnt = 100 ∧ resC.dataset.call_cnt = 100 :=
  c2_dataset_counters initA nowA [] [] [] "n" "d" false 0 resC rfl rfl

/-- C5 (amended): exactly one AccessLevelEntry row and one ConsentEntry row
are written when the sample list is non-empty; when the sample list is
empty the whole variant phase — those two inserts included — is skipped and
none are written (lines 107, 135-142). -/
theorem c5_metadata_rows (init : AllTables) (now : Date) (data : List Patient)
    (samples : List String) (records : List VcfRecord) (nm dsc : String) (fa : Bool)
    (res : IngestResult)
    (h : ingest init now data samples records nm dsc fa = some res) :
    (0 < samples.length → res.accessRows.length = 1 ∧ res.consentRows.length = 1) ∧
    (samples.length = 0 → res.accessRows = [] ∧ res.consentRows = []) := by
  obtain ⟨ds_last, var_last, pout, -, -, -, -, -, -, -, -, hpos, hzero⟩ :=
    ingest_cases init now data samples records nm dsc fa res h
  refine ⟨fun hp => ?_, fun hz => ⟨(hzero hz).2.1, (hzero hz).2.2⟩⟩
  rw [(hpos hp).2.1, (hpos hp).2.2]
  exact ⟨rfl, rfl⟩

/-- Witness for C5 at a concrete run with one sample name. -/
theorem c5_witness :
    (0 < (["S1"] : List String).length →
      resB.accessRows.length = 1 ∧ resB.consentRows.length = 1) ∧
    ((["S1"] : List String).length = 0 → resB.accessRows = [] ∧ resB.consentRows = []) :=
  c5_metadata_rows initA nowA [] ["S1"] [] "n" "d" false resB rfl

/-- C6: every Variant row has `frequency = matching_sample_cnt / sample_cnt`
with `0 ≤ frequency ≤ 1` and `matching_sample_cnt ≤ sample_cnt`, given that
each record's per-sample calls range over the declared sample list (one
call per declared sample); its `sample_cnt` is positive because the loop
only runs when the sample count is non-zero (line 107), so the division is
never performed with a zero total. -/
theorem c6_frequency (init : AllTables) (now : Date) (data : List Patient)
    (samples : List String) (records : List VcfRecord) (nm dsc : String) (fa : Bool)
    (res : IngestResult) (v : VariantRow)
    (hlen : ∀ r ∈ records, r.samples.length = samples.length)
    (h : ingest init now data samples records nm dsc fa = some res)
    (hv : v ∈ res.variantRows) :
    v.frequency = (v.matching_sample_cnt : ℚ) / (v.sample_cnt : ℚ) ∧
    v.matching_sample_cnt ≤ v.sample_cnt ∧ 0 < v.sample_cnt ∧
    0 ≤ v.frequency ∧ v.frequency ≤ 1 := by
  obtain ⟨ds_last, var_last, pout, -, -, -, -, -, -, -, -, hpos, hzero⟩ :=
    ingest_cases init now data samples records nm dsc fa res h
  by_cases hs : 0 < samples.length
  · rw [(hpos hs).1] at hv
    obtain ⟨r, hr, cid, rfl⟩ :=
      variantLoop_mem_fields (ds_last + 1) samples.length pout.sample_to_id records
        (var_last + 1) 0 0 v hv
    have hm : (carriers r).length ≤ samples.length := by
      have := carriers_length_le r
      rw [hlen r hr] at this
      exact this
    refine ⟨rfl, hm, hs, ?_, ?_⟩
    · simp only [mkVariantRow]
      exact div_nonneg (Nat.cast_nonneg _) (Nat.cast_nonneg _)
    · simp only [mkVariantRow]
      rw [div_le_one (by exact_mod_cast hs)]
      exact_mod_cast hm
  · rw [(hzero (by omega)).1] at hv
    cases hv

/-- Witness for C6 at a concrete one-variant run with one sample. -/
theorem c6_witness :
    vA.frequency = (vA.matching_sample_cnt : ℚ) / (vA.sample_cnt : ℚ) ∧
    vA.matching_sample_cnt ≤ vA.sample_cnt ∧ 0 < vA.sample_cnt ∧
    0 ≤ vA.frequency ∧ vA.frequency ≤ 1 :=
  c6_frequency initA nowA [patientA] ["S1"] [recA] "n" "d" false resA vA
    (by decide) rfl (by
      have hrows : resA.variantRows = [vA] := rfl
      rw [hrows]
      exact List.mem_singleton.mpr rfl)

/-- C7 (amended): every patient gets exactly one Individual row and its
DiseaseRecord rows, in input order; a Sample row is created for the patient
at position i exactly when i is within the sample name list's length AND
the name there is truthy — `if sample:` (line 84) also drops an
empty-string name, not only the `None` padding. -/
theorem c7_sample_rows (init : AllTables) (now : Date) (data : List Patient)
    (samples : List String) (records : List VcfRecord) (nm dsc : String) (fa : Bool)
    (res : IngestResult)
    (h : ingest init now data samples records nm dsc fa = some res) :
    res.individuals.length = data.length ∧
    res.sampleRows.map (fun r => r.stable_id)
        = (samples.take data.length).filter (fun s => !(s == "")) ∧
    res.diseaseRows.length = (data.map presentCnt).sum := by
  obtain ⟨ds_last, var_last, pout, -, -, hpp, -, hind, hdr, hsr, -, -, -⟩ :=
    ingest_cases init now data samples records nm dsc fa res h
  have hspec := processPatients_spec now (ds_last + 1) (pairUp data samples) 0
    ⟨init.individual, init.disease, init.sample, init.datasetSample⟩ [] pout hpp
  refine ⟨?_, ?_, ?_⟩
  · rw [hind, hspec.1, pairUp_length]
  · rw [hsr, hspec.2.1, pairUp_filterMap]
  · rw [hdr, hspec.2.2, pairUp_map_fst]

/-- Witness for C7 at a concrete run with one patient and one sample. -/
theorem c7_witness :
    resA.individuals.length = ([patientA] : List Patient).length ∧
    resA.sampleRows.map (fun r => r.stable_id)
        = ((["S1"] : List String).take ([patientA] : List Patient).length).filter
            (fun s => !(s == "")) ∧
    resA.diseaseRows.length = (([patientA] : List Patient).map presentCnt).sum :=
  c7_sample_rows initA nowA [patientA] ["S1"] [recA] "n" "d" false resA rfl

/-- C10: the Dataset row's sample count is fixed at creation to the length
of the input sample name list (line 36); when that list is longer than the
patient list the surplus names are never paired with a patient (zip
truncates, line 42), so the Dataset sample count strictly exceeds the
number of Sample rows created. -/
theorem c10_dataset_sample_cnt (init : AllTables) (now : Date) (data : List Patient)
    (samples : List String) (records : List VcfRecord) (nm dsc : String) (fa : Bool)
    (res : IngestResult)
    (h : ingest init now data samples records nm dsc fa = some res)
    (hlt : data.length < samples.length) :
    res.dataset.sample_cnt = samples.length ∧
    res.sampleRows.length < res.dataset.sample_cnt := by
  obtain ⟨ds_last, var_last, pout, -, -, hpp, hds, -, -, hsr, -, -, -⟩ :=
    ingest_cases init now data samples records nm dsc fa res h
  have hspec := processPatients_spec now (ds_last + 1) (pairUp data samples) 0
    ⟨init.individual, init.disease, init.sample, init.datasetSample⟩ [] pout hpp
  have h1 : res.dataset.sample_cnt = samples.length := by rw [hds]; rfl
  refine ⟨h1, ?_⟩
  have h2 := congrArg List.length (hsr.symm ▸ hspec.2.1 : res.sampleRows.map
    (fun r => r.stable_id) = (pairUp data samples).filterMap
      (fun pr => if truthy pr.2 then pr.2 else none))
  rw [List.length_map, pairUp_filterMap] at h2
  have h3 : res.sampleRows.length ≤ data.length := by
    rw [h2]
    calc ((samples.take data.length).filter (fun s => !(s == ""))).length
        ≤ (samples.take data.length).length := List.length_filter_le _ _
      _ ≤ data.length := by simp [List.length_take]
  omega

/-- Witness for C10 at a concrete run with no patients and one sample. -/
theorem c10_witness :
    resB.dataset.sample_cnt = (["S1"] : List String).length ∧
    resB.sampleRows.length < resB.dataset.sample_cnt :=
  c10_dataset_sample_cnt initA nowA [] ["S1"] [] "n" "d" false resB rfl (by decide)
